import Mathlib

/-!
Verification development for the `claude-summary-hooks` repository
(`src/hooks/stop.py` and `src/hooks/user_prompt_submit.py`).

The Python code is shallowly embedded: JSON values become an inductive
type, the hooks' side effects become explicit effect traces, the
external text-generation command becomes an oracle describing how the
spawned process behaved, and the regex-based output sanitizer is
implemented character-by-character following the exact semantics of the
two substitution patterns in `stop.py`.
-/

set_option autoImplicit false

namespace Hooks

/-- Decoded JSON values as produced by Python's `json.loads`.
Python `None`/JSON `null` is `JVal.null`.  Objects are association
lists in insertion order (duplicate keys are resolved at parse time,
last occurrence wins, matching `json.loads`).  Float literals are not
modelled (no float ever flows through these hooks). -/
inductive JVal where
  | null
  | bool (b : Bool)
  | num (n : Int)
  | str (s : String)
  | arr (items : List JVal)
  | obj (fields : List (String × JVal))

/-- Python truthiness (`bool(v)`) of a decoded JSON value. -/
def pyTruthy : JVal → Bool
  | .null => false
  | .bool b => b
  | .num n => n != 0
  | .str s => s != ""
  | .arr l => !l.isEmpty
  | .obj l => !l.isEmpty

/-- `d.get(k, default)` on a Python dict decoded from JSON. -/
def jGetD (fields : List (String × JVal)) (k : String) (dflt : JVal) : JVal :=
  match fields.find? (fun p => p.1 = k) with
  | some p => p.2
  | none => dflt

/-- `d.get(k)` (default `None`) as an `Option`: `none` means the key is
absent, mirroring the fact that `d.get(k)` then returns Python `None`. -/
def jGet? (fields : List (String × JVal)) (k : String) : Option JVal :=
  (fields.find? (fun p => p.1 = k)).map (·.2)

/-- Python dict assignment `d[k] = v`: replaces in place, appends if new. -/
def objSet : List (String × JVal) → String → JVal → List (String × JVal)
  | [], k, v => [(k, v)]
  | (k', v') :: rest, k, v =>
      if k' = k then (k, v) :: rest else (k', v') :: objSet rest k v

/-- Process environment (`os.environ`): association list, first match wins. -/
def envGet (env : List (String × String)) (k : String) : Option String :=
  (env.find? (fun p => p.1 = k)).map (·.2)

/-- `env[k] = v` on a copied environment dict: prepend an overriding entry. -/
def envSet (env : List (String × String)) (k : String) (v : String) :
    List (String × String) :=
  (k, v) :: env

/-! ## Python string primitives (over `List Char`) -/

/-- Whitespace stripped by Python `str.strip()` (the ASCII portion;
no wider Unicode whitespace occurs in this system's data). -/
def isPySpace (c : Char) : Bool :=
  c = ' ' || c = '\t' || c = '\n' || c = '\r' || c = '\x0b' || c = '\x0c'

/-- `str.strip()` : drop leading and trailing whitespace. -/
def pyStripL (l : List Char) : List Char :=
  ((l.dropWhile isPySpace).reverse.dropWhile isPySpace).reverse

def pyStrip (s : String) : String := ⟨pyStripL s.data⟩

/-- `str.split("\n")` : split on every newline (keeps empty parts). -/
def splitNl : List Char → List (List Char)
  | [] => [[]]
  | c :: cs =>
      let rest := splitNl cs
      if c = '\n' then [] :: rest
      else match rest with
        | [] => [[c]]
        | p :: ps => (c :: p) :: ps

/-- Decimal digit character. -/
def decDigit (n : Nat) : Char := Char.ofNat (48 + n)

/-- Decimal rendering of a natural number (fuel-structured so the kernel
can evaluate it; fuel is always sufficient at `n + 1`). -/
def natDecAux : Nat → Nat → List Char
  | 0, _ => []
  | f + 1, n =>
      if n < 10 then [decDigit n]
      else natDecAux f (n / 10) ++ [decDigit (n % 10)]

def natDec (n : Nat) : String := ⟨natDecAux (n + 1) n⟩

/-- Python `str(i)` for an integer. -/
def intDec (i : Int) : String :=
  if i < 0 then "-" ++ natDec (-i).toNat else natDec i.toNat

/-- Python `str.replace(pat, rep)` (all occurrences, left to right;
the empty pattern never occurs in this code and maps to the identity).
Fuel-structured; `replaceFuel` with fuel `≥ l.length` is exact. -/
def replaceFuel (pat rep : List Char) : Nat → List Char → List Char
  | 0, l => l
  | _ + 1, [] => []
  | f + 1, c :: cs =>
      if pat ≠ [] ∧ pat.isPrefixOf (c :: cs) then
        rep ++ replaceFuel pat rep f (List.drop pat.length (c :: cs))
      else
        c :: replaceFuel pat rep f cs

def pyReplaceL (pat rep l : List Char) : List Char :=
  replaceFuel pat rep l.length l

def pyReplace (s pat rep : String) : String :=
  ⟨pyReplaceL pat.data rep.data s.data⟩

/-- Python `lst[-n:]` on a list (last `n` elements, all if fewer). -/
def pyTakeLast {α : Type} (n : Nat) (l : List α) : List α :=
  l.drop (l.length - n)

/-! ## Python `str(v)` / `repr(v)` for decoded JSON values -/

/-- Comma-join used by `pyRepr`. -/
def joinComma (parts : List String) : String :=
  String.intercalate ", " parts

mutual

/-- Python `repr(v)` for a decoded JSON value (string-escaping inside
`repr` is not modelled; reprs of containers never feed back into the
hooks' logic, they can only appear inside a `/tmp` path). -/
def pyRepr : JVal → String
  | .null => "None"
  | .bool b => if b then "True" else "False"
  | .num n => intDec n
  | .str s => "'" ++ s ++ "'"
  | .arr items => "[" ++ joinComma (pyReprList items) ++ "]"
  | .obj fields => "\x7b" ++ joinComma (pyReprObj fields) ++ "\x7d"

def pyReprList : List JVal → List String
  | [] => []
  | v :: vs => pyRepr v :: pyReprList vs

def pyReprObj : List (String × JVal) → List String
  | [] => []
  | (k, v) :: kvs => ("'" ++ k ++ "': " ++ pyRepr v) :: pyReprObj kvs

end

/-- Python `str(v)` for a decoded JSON value (as used in f-strings). -/
def pyStr : JVal → String
  | .null => "None"
  | .bool b => if b then "True" else "False"
  | .num n => intDec n
  | .str s => s
  | .arr items => pyRepr (.arr items)
  | .obj fields => pyRepr (.obj fields)

/-! ## `json.loads` : a recursive-descent JSON parser

Fuel-structured so the kernel can evaluate it; fuel `length + 1` is
ample for every input in this development.  Float literals are rejected
(none occur in this system's data), `\uXXXX` escapes decode the BMP
code point directly (surrogate pairs are not modelled). -/

def isJsonWs (c : Char) : Bool :=
  c = ' ' || c = '\t' || c = '\n' || c = '\r'

def skipWs (l : List Char) : List Char := l.dropWhile isJsonWs

def hexVal (c : Char) : Option Nat :=
  if '0' ≤ c ∧ c ≤ '9' then some (c.toNat - 48)
  else if 'a' ≤ c ∧ c ≤ 'f' then some (c.toNat - 87)
  else if 'A' ≤ c ∧ c ≤ 'F' then some (c.toNat - 55)
  else none

/-- Decode a `\uXXXX` escape. -/
def pHex4 : List Char → Option (Char × List Char)
  | a :: b :: c :: d :: rest =>
      match hexVal a, hexVal b, hexVal c, hexVal d with
      | some x, some y, some z, some w =>
          some (Char.ofNat (((x * 16 + y) * 16 + z) * 16 + w), rest)
      | _, _, _, _ => none
  | _ => none

/-- Decode one backslash escape (the char after `\`). -/
def pEsc : List Char → Option (Char × List Char)
  | [] => none
  | e :: cs =>
      if e = '"' then some ('"', cs)
      else if e = '\\' then some ('\\', cs)
      else if e = '/' then some ('/', cs)
      else if e = 'n' then some ('\n', cs)
      else if e = 't' then some ('\t', cs)
      else if e = 'r' then some ('\r', cs)
      else if e = 'b' then some ('\x08', cs)
      else if e = 'f' then some ('\x0c', cs)
      else if e = 'u' then pHex4 cs
      else none

/-- Parse a string body (after the opening quote), returning the
decoded characters and the remainder after the closing quote. -/
def pStrBody : Nat → List Char → Option (List Char × List Char)
  | 0, _ => none
  | f + 1, l =>
      match l with
      | [] => none
      | c :: cs =>
          if c = '"' then some ([], cs)
          else if c = '\\' then
            match pEsc cs with
            | some (ch, rest) =>
                match pStrBody f rest with
                | some (s, r) => some (ch :: s, r)
                | none => none
            | none => none
          else
            match pStrBody f cs with
            | some (s, r) => some (c :: s, r)
            | none => none

def digitsToNat (ds : List Char) : Nat :=
  ds.foldl (fun a c => a * 10 + (c.toNat - 48)) 0

/-- Parse an integer JSON number (floats rejected, see header note). -/
def pNum (l : List Char) : Option (JVal × List Char) :=
  let neg := match l with | '-' :: _ => true | _ => false
  let l' := if neg then l.drop 1 else l
  let ds := l'.takeWhile Char.isDigit
  let rest := l'.dropWhile Char.isDigit
  if ds.isEmpty then none
  else
    match rest with
    | '.' :: _ => none
    | 'e' :: _ => none
    | 'E' :: _ => none
    | _ =>
        let n : Int := digitsToNat ds
        some (.num (if neg then -n else n), rest)

/-- Rebuild a Python dict from parsed members (duplicate keys: last wins,
first position kept, as in `json.loads`). -/
def objFromPairs (pairs : List (String × JVal)) : List (String × JVal) :=
  pairs.foldl (fun acc p => objSet acc p.1 p.2) []

mutual

def pValue : Nat → List Char → Option (JVal × List Char)
  | 0, _ => none
  | f + 1, l =>
      match skipWs l with
      | [] => none
      | c :: cs =>
          if c = '"' then
            match pStrBody (cs.length + 1) cs with
            | some (s, r) => some (.str ⟨s⟩, r)
            | none => none
          else if c = '{' then
            match skipWs cs with
            | '}' :: r => some (.obj [], r)
            | rest =>
                match pMembers f rest with
                | some (kvs, r) => some (.obj (objFromPairs kvs), r)
                | none => none
          else if c = '[' then
            match skipWs cs with
            | ']' :: r => some (.arr [], r)
            | rest =>
                match pItems f rest with
                | some (vs, r) => some (.arr vs, r)
                | none => none
          else if c = 't' then
            match cs with
            | 'r' :: 'u' :: 'e' :: r => some (.bool true, r)
            | _ => none
          else if c = 'f' then
            match cs with
            | 'a' :: 'l' :: 's' :: 'e' :: r => some (.bool false, r)
            | _ => none
          else if c = 'n' then
            match cs with
            | 'u' :: 'l' :: 'l' :: r => some (.null, r)
            | _ => none
          else if c = '-' ∨ c.isDigit then pNum (c :: cs)
          else none

/-- Parse object members, positioned at a key (whitespace skipped). -/
def pMembers : Nat → List Char → Option (List (String × JVal) × List Char)
  | 0, _ => none
  | f + 1, l =>
      match l with
      | '"' :: cs =>
          match pStrBody (cs.length + 1) cs with
          | some (k, r1) =>
              (match skipWs r1 with
               | ':' :: r2 =>
                   match pValue f r2 with
                   | some (v, r3) =>
                       (match skipWs r3 with
                        | ',' :: r4 =>
                            (match pMembers f (skipWs r4) with
                             | some (kvs, r5) => some ((⟨k⟩, v) :: kvs, r5)
                             | none => none)
                        | '}' :: r4 => some ([(⟨k⟩, v)], r4)
                        | _ => none)
                   | none => none
               | _ => none)
          | none => none
      | _ => none

/-- Parse array items, positioned at a value (whitespace skipped). -/
def pItems : Nat → List Char → Option (List JVal × List Char)
  | 0, _ => none
  | f + 1, l =>
      match pValue f l with
      | some (v, r1) =>
          (match skipWs r1 with
           | ',' :: r2 =>
               (match pItems f (skipWs r2) with
                | some (vs, r3) => some (v :: vs, r3)
                | none => none)
           | ']' :: r2 => some ([v], r2)
           | _ => none)
      | none => none

end

/-- `json.loads(s)` : parse, then require only whitespace to remain.
`none` models a raised `json.JSONDecodeError`. -/
def jsonParse (s : String) : Option JVal :=
  match pValue (s.data.length + 1) s.data with
  | some (v, r) => if (skipWs r).isEmpty then some v else none
  | none => none

/-! ## `json.dump(..., indent=2)` : the serializer -/

/-- Lower-case hex digit. -/
def hexDigit (n : Nat) : Char :=
  if n < 10 then decDigit n else Char.ofNat (87 + n)

/-- JSON string escaping as performed by `json.dump` with the default
`ensure_ascii=True`: quote, backslash, named control escapes, `\u00XX`
for remaining control characters, `\uXXXX` for non-ASCII (BMP only;
astral characters would use surrogate pairs, not modelled). -/
def jEscapeChar (c : Char) : List Char :=
  if c = '"' then ['\\', '"']
  else if c = '\\' then ['\\', '\\']
  else if c = '\n' then ['\\', 'n']
  else if c = '\t' then ['\\', 't']
  else if c = '\r' then ['\\', 'r']
  else if c = '\x08' then ['\\', 'b']
  else if c = '\x0c' then ['\\', 'f']
  else if c.toNat < 32 ∨ c.toNat ≥ 128 then
    '\\' :: 'u' ::
      (List.map (fun (k : Nat) => hexDigit (c.toNat / 16 ^ k % 16)) [3, 2, 1, 0])
  else [c]

def jEscape (s : String) : String :=
  ⟨s.data.foldr (fun c acc => jEscapeChar c ++ acc) []⟩

def spacesN (n : Nat) : String := ⟨List.replicate n ' '⟩

def prefixAll (p : String) (ls : List String) : List String :=
  ls.map (fun s => p ++ s)

mutual

/-- Serialize with `indent=2` (argument is the indent level of the
surrounding container's entries). -/
def dumpVal : Nat → JVal → String
  | _, .null => "null"
  | _, .bool b => if b then "true" else "false"
  | _, .num n => intDec n
  | _, .str s => "\"" ++ jEscape s ++ "\""
  | ind, .arr items =>
      match items with
      | [] => "[]"
      | _ =>
          "[\n" ++
            String.intercalate ",\n"
              (prefixAll (spacesN (ind + 2)) (dumpList (ind + 2) items)) ++
            "\n" ++ spacesN ind ++ "]"
  | ind, .obj fields =>
      match fields with
      | [] => "\x7b\x7d"
      | _ =>
          "\x7b\n" ++
            String.intercalate ",\n"
              (prefixAll (spacesN (ind + 2)) (dumpObj (ind + 2) fields)) ++
            "\n" ++ spacesN ind ++ "\x7d"

def dumpList : Nat → List JVal → List String
  | _, [] => []
  | ind, v :: vs => dumpVal ind v :: dumpList ind vs

def dumpObj : Nat → List (String × JVal) → List String
  | _, [] => []
  | ind, (k, v) :: kvs =>
      ("\"" ++ jEscape k ++ "\": " ++ dumpVal ind v) :: dumpObj ind kvs

end

/-- `json.dump(v, f, indent=2)` : the full file content written for a
session record. -/
def jsonDumpIndent2 (v : JVal) : String := dumpVal 0 v

/-! ## The output sanitizer of `stop.py` (`generate_summary`, lines 329-342)

Two regex substitutions over the PTY output, faithful to Python `re`
semantics for these exact patterns.

Pass 1 is `ESC` followed by one of three alternatives, tried in the
pattern's order as `re` does: (a) a single character in the class
covering `0x40-0x5A` and (via the escaped-backslash-to-underscore
range) `0x5C-0x5F`; (b) a CSI sequence: a literal open bracket, a
greedy run over `0x30-0x3F`, a greedy run over `0x20-0x2F`, and one
final character in `0x40-0x7E`; (c) an OSC sequence: a literal close
bracket, a greedy run over everything except `BEL` and `ESC`, then
`BEL` or `ESC` + backslash.  Because a close bracket (`0x5D`) is in
class (a), alternative (c) is unreachable; it is still implemented, in
order, for fidelity.  Greedy sub-matches in (b) and (c) are
deterministic: the relevant character classes are disjoint from the
possible continuations, so no backtracking can succeed where the greedy
scan failed.

Pass 2 is: optional `CR`, then `LF`, then one-or-more characters in
digits-or-semicolon, then a greedy run over `0x00-0x1F`, then `$`.
A match must run to the end of the string: `$` matches at the very end
or just before a final newline, and a final newline is itself in
`0x00-0x1F`, so the greedy control-character run always extends the
match to the end; backtracking cannot produce a match ending earlier
(the character after a shortened run is never at a `$` position).
Hence the substitution removes at most one suffix, at the leftmost
position where the remaining suffix has this shape. -/

def isEscClassA (c : Char) : Bool :=
  (0x40 ≤ c.toNat && c.toNat ≤ 0x5A) || (0x5C ≤ c.toNat && c.toNat ≤ 0x5F)

def isCsiParam (c : Char) : Bool := 0x30 ≤ c.toNat && c.toNat ≤ 0x3F

def isCsiInter (c : Char) : Bool := 0x20 ≤ c.toNat && c.toNat ≤ 0x2F

def isCsiFinal (c : Char) : Bool := 0x40 ≤ c.toNat && c.toNat ≤ 0x7E

/-- Scan of the OSC alternative body `[^\x07\x1B]*(?:\x07|\x1B\\)`. -/
def oscScan : List Char → Option (List Char)
  | [] => none
  | c :: rest =>
      if c = '\x07' then some rest
      else if c = '\x1B' then
        match rest with
        | '\\' :: r => some r
        | _ => none
      else oscScan rest

/-- Given the characters after an `ESC`, return the remainder after the
escape sequence if the pass-1 pattern matches here (alternatives tried
in the pattern's order). -/
def ansiTail (cs : List Char) : Option (List Char) :=
  match cs with
  | [] => none
  | c :: rest =>
      if isEscClassA c then some rest
      else if c = '[' then
        let r1 := rest.dropWhile isCsiParam
        let r2 := r1.dropWhile isCsiInter
        match r2 with
        | f :: r3 => if isCsiFinal f then some r3 else none
        | [] => none
      else if c = ']' then oscScan rest
      else none

/-- Pass 1 substitution (`ansi_escape_1.sub('', stdout)`), non-overlapping,
left to right.  Fuel-structured; fuel `l.length` is always sufficient
because every removed match consumes at least two characters. -/
def pass1Fuel : Nat → List Char → List Char
  | 0, l => l
  | _ + 1, [] => []
  | f + 1, c :: cs =>
      if c = '\x1B' then
        match ansiTail cs with
        | some rest => pass1Fuel f rest
        | none => c :: pass1Fuel f cs
      else c :: pass1Fuel f cs

def pass1 (l : List Char) : List Char := pass1Fuel l.length l

def isDigitSemi (c : Char) : Bool := c.isDigit || c = ';'

def isCtrl (c : Char) : Bool := c.toNat ≤ 0x1F

/-- Does the pass-2 pattern match this suffix (necessarily to the end)? -/
def digitsCtrlEnd (rest : List Char) : Bool :=
  !(rest.takeWhile isDigitSemi).isEmpty &&
    ((rest.dropWhile isDigitSemi).dropWhile isCtrl).isEmpty

def pass2Match (l : List Char) : Bool :=
  match l with
  | c :: rest =>
      if c = '\r' then
        match rest with
        | c2 :: rest2 => if c2 = '\n' then digitsCtrlEnd rest2 else false
        | [] => false
      else if c = '\n' then digitsCtrlEnd rest
      else false
  | [] => false

/-- Pass 2 substitution (`ansi_escape_2.sub('', stdout_temp)`): remove
the leftmost matching suffix, if any. -/
def pass2 : List Char → List Char
  | [] => []
  | c :: cs => if pass2Match (c :: cs) then [] else c :: pass2 cs

/-- `stdout_clean` as computed in `generate_summary` (post-decode text;
`bytes.decode('utf-8', errors='replace')` is total and is the identity
on the decoded text modelled here). -/
def sanitizeClean (l : List Char) : List Char := pass2 (pass1 l)

/-- The full sanitization transform of the spec: decode (identity on
text), escape removal, trailing-garbage removal, whitespace trim. -/
def sanitizeOutput (l : List Char) : List Char := pyStripL (sanitizeClean l)

/-! ## Session records and effects

`debug_log` writes (appends to a `/tmp` diagnostics file, only when
`CLAUDE_HOOK_DEBUG=1`) influence no control flow and are the spec's
explicitly-scoped-out diagnostics channel; they are not modelled as
effects.  All store/file/process effects are. -/

/-- The record written by `stop.py`'s `write_session_file`. -/
structure StopSessionData where
  sessionId : JVal
  cwd : String
  status : String
  summary : Option String
  userSummary : JVal
  agentSummary : JVal
  updatedAt : String

/-- The record written by `user_prompt_submit.py`'s `write_session_file`
(note: no `userSummary`/`agentSummary` fields). -/
structure UpsSessionData where
  sessionId : JVal
  cwd : String
  status : String
  summary : JVal
  updatedAt : String

/-- JSON form of a stop-hook session record, in field insertion order. -/
def stopDataJson (d : StopSessionData) : JVal :=
  .obj [("sessionId", d.sessionId), ("cwd", .str d.cwd),
        ("status", .str d.status),
        ("summary", match d.summary with | some s => .str s | none => .null),
        ("userSummary", d.userSummary), ("agentSummary", d.agentSummary),
        ("updatedAt", .str d.updatedAt)]

/-- Effects that the hooks perform, in program order.  The fork is
modelled by concatenating the child pipeline's effects after the
parent's (the two run in separate processes; only the set and relative
per-process order matter to the claims). -/
inductive Eff where
  | setPathEnv
  | mkdirSessions
  | writeStopRecord (path : String) (d : StopSessionData)
  | writeUpsRecord (path : String) (d : UpsSessionData)
  | writeConvFile (path : String) (conv : JVal)
  | mkdirDotClaude (path : String)
  | writeSummaryTxt (path : String) (content : String)
  | spawnClaude (env : List (String × String)) (prompt : String)
  | killProc
  | waitProc

/-- Stand-in for `hashlib.md5(cwd.encode()).hexdigest()[:12]` (a library
call external to this embedding): a deterministic digest of the path.
The claims depend only on the key being a deterministic function of
`cwd`, never on the digest value itself. -/
def cwdDigest12 (cwd : String) : String :=
  natDec (cwd.data.foldl (fun h c => (h * 31 + c.toNat) % 2 ^ 40) 7)

/-- `os.path.join(sessions_dir, f"{cwd_hash}.json")` (with
`os.path.expanduser` left symbolic). -/
def sessionFilePath (cwd : String) : String :=
  "~/.claude/sessions/" ++ cwdDigest12 cwd ++ ".json"

/-- Python slice `s[:n]` (by code points). -/
def pyTake (s : String) (n : Nat) : String := ⟨s.data.take n⟩

def pyLen (s : String) : Nat := s.data.length

def strStartsWith (s p : String) : Bool := p.data.isPrefixOf s.data

/-- The string `"```"` (three backticks). -/
def fence3 : String := "\x60\x60\x60"

/-- Markdown code-fence stripping in `stop.py`'s `write_session_file`
(lines 70-80): on a fenced summary, drop the opening fence line, a
closing fence line, and re-strip. -/
def stripFences (summary : String) : String :=
  let clean := pyStrip summary
  if strStartsWith clean fence3 then
    let lines := splitNl clean.data
    let lines :=
      if strStartsWith ⟨lines.headD []⟩ fence3 then lines.drop 1 else lines
    let lines :=
      if !lines.isEmpty && pyStrip ⟨lines.getLast?.getD []⟩ = fence3 then
        lines.dropLast
      else lines
    pyStrip (String.intercalate "\n" (lines.map (fun l => ⟨l⟩)))
  else clean

/-- The legacy line-prefix extraction (lines 90-96): last `USER…` /
`AGENT…` line wins, with prefix labels removed. -/
def legacyLine (st : JVal × JVal) (line : List Char) : JVal × JVal :=
  if ['U', 'S', 'E', 'R'].isPrefixOf line then
    (.str (pyStrip (pyReplace (pyReplace (pyReplace ⟨line⟩
        "USER asked:" "") "USER asked" "") "USER:" "")), st.2)
  else if ['A', 'G', 'E', 'N', 'T'].isPrefixOf line then
    (st.1, .str (pyStrip (pyReplace ⟨line⟩ "AGENT:" "")))
  else st

def legacyExtract (summary : String) : JVal × JVal :=
  (splitNl (pyStrip summary).data).foldl legacyLine (.null, .null)

/-- Summary parsing in `stop.py`'s `write_session_file` (lines 66-96):
structured decode first, legacy line-prefix fallback only on a JSON
decode error (a parse to a non-dict leaves both fields `None`). -/
def stopParseSummary (summary : String) : JVal × JVal :=
  let clean := stripFences summary
  match jsonParse clean with
  | some (.obj d) =>
      (jGetD d "user_summary" .null, jGetD d "agent_summary" .null)
  | some _ => (.null, .null)
  | none => legacyExtract summary

/-- The record built by `stop.py`'s `write_session_file` (lines 98-106).
This version performs no read of the existing file. -/
def stopWriteData (sessionId : JVal) (cwd status : String)
    (summary : Option String) (now : String) : StopSessionData :=
  let ua :=
    match summary with
    | some s => if s ≠ "" then stopParseSummary s else (JVal.null, JVal.null)
    | none => (JVal.null, JVal.null)
  { sessionId := sessionId, cwd := cwd, status := status, summary := summary,
    userSummary := ua.1, agentSummary := ua.2, updatedAt := now }

/-- Effects of `stop.py`'s `write_session_file` (requires `cwd` to be a
string; a non-string crashes at `cwd.encode()` after `makedirs`). -/
def stopWriteSessionFile (sessionId : JVal) (cwd status : String)
    (summary : Option String) (now : String) : List Eff :=
  [.mkdirSessions,
   .writeStopRecord (sessionFilePath cwd)
     (stopWriteData sessionId cwd status summary now)]

/-- The read-before-write summary merge in `user_prompt_submit.py`'s
`write_session_file` (lines 36-44): a falsy incoming summary is
replaced by the existing record's `summary` field when the file exists
and parses to a dict; any read/parse error is swallowed by the bare
`except`, leaving the incoming (falsy) value.
`sessionFile` : `none` = file absent, `some none` = unreadable or
invalid JSON, `some (some v)` = parses to `v`. -/
def upsExistingSummary (summary : Option String)
    (sessionFile : Option (Option JVal)) : JVal :=
  let incoming : JVal := match summary with | some s => .str s | none => .null
  if pyTruthy incoming then incoming
  else
    match sessionFile with
    | some (some (.obj d)) => jGetD d "summary" .null
    | _ => incoming

/-- The record built by `user_prompt_submit.py`'s `write_session_file`. -/
def upsWriteData (sessionId : JVal) (cwd status : String)
    (summary : Option String) (sessionFile : Option (Option JVal))
    (now : String) : UpsSessionData :=
  { sessionId := sessionId, cwd := cwd, status := status,
    summary := upsExistingSummary summary sessionFile, updatedAt := now }

def upsWriteSessionFile (sessionId : JVal) (cwd status : String)
    (summary : Option String) (sessionFile : Option (Option JVal))
    (now : String) : List Eff :=
  [.mkdirSessions,
   .writeUpsRecord (sessionFilePath cwd)
     (upsWriteData sessionId cwd status summary sessionFile now)]

/-! ## `build_conversation_text` (stop.py lines 186-193) -/

/-- Collect the formatted parts.  `ex.get(...)` on a non-dict raises
`AttributeError` (`Except.error`), propagated to the pipeline's
swallow-all wrapper. -/
def bctParts : List JVal → Except Unit (List String)
  | [] => .ok []
  | ex :: rest =>
      match ex with
      | .obj d =>
          match bctParts rest with
          | .ok ps =>
              if pyTruthy (jGetD d "user" .null) &&
                  pyTruthy (jGetD d "assistant" .null) then
                .ok (("USER: " ++ pyStr (jGetD d "user" .null) ++
                      "\nAGENT: " ++ pyStr (jGetD d "assistant" .null)) :: ps)
              else .ok ps
          | .error e => .error e
      | _ => .error ()

def build_conversation_text (exchanges : List JVal) : Except Unit String :=
  (bctParts exchanges).map (String.intercalate "\n\n")

/-! ## `generate_summary` (stop.py lines 196-359) -/

/-- Project context as returned by `read_project_context` (an external
collaborator per the spec: reading and truncating project documents is
out of the core's scope; its three string outputs are world inputs). -/
structure ProjectContext where
  claude_md : String
  plan_md : String
  current_task : String

/-- How the spawned external command behaved: `Popen` raised
`FileNotFoundError`; some other exception in the PTY handling (e.g.
`pty.openpty` failing, before a process exists); the wall-clock budget
elapsed with these partial bytes captured; or the process exited with
this code and (decoded) accumulated output. -/
inductive ExecOutcome where
  | notFound
  | ptyError (msg : String)
  | timeout (partialOut : List Char)
  | exited (code : Int) (out : List Char)

structure GenResult where
  effects : List Eff
  summary : String

def maxConversationLen : Nat := 6000

def timeoutDuration : Nat := 90

def truncConv (t : String) : String :=
  if pyLen t > maxConversationLen then pyTake t maxConversationLen ++ "..." else t

/-- `context_section` (lines 204-215). -/
def contextSection (ctx : ProjectContext) : String :=
  let parts :=
    (if ctx.current_task ≠ "" then ["CURRENT TASK:\n" ++ ctx.current_task]
     else if ctx.plan_md ≠ "" then ["PROJECT PLAN:\n" ++ pyTake ctx.plan_md 500]
     else []) ++
    (if ctx.claude_md ≠ "" then ["PROJECT INFO:\n" ++ pyTake ctx.claude_md 500]
     else [])
  String.intercalate "\n\n" parts

/-- `summary_prompt` (the f-string at lines 217-234). -/
def summaryPrompt (conversationText : String) (ctx : ProjectContext) : String :=
  let cs := contextSection ctx
  "Summarize this coding session in MINIMAL words.\n" ++
  (if cs ≠ "" then "\nPROJECT: " ++ pyTake cs 300 ++ "\n" else "") ++ "\n" ++
  "CONVERSATION:\n" ++ conversationText ++ "\n\n" ++
  "CRITICAL: Be EXTREMELY concise. Max 8-10 words each. No filler words. Telegraph style.\n\n" ++
  "Respond with ONLY valid JSON, no markdown, no code fences:\n" ++
  "\x7b\"user_summary\": \"max 10 words - what user wanted\", \"agent_summary\": \"max 10 words - what was done\"\x7d\n\n" ++
  "Examples of good summaries:\n" ++
  "- \"user_summary\": \"Add dark mode toggle\"\n" ++
  "- \"agent_summary\": \"Implemented theme switcher in settings\"\n\n" ++
  "- \"user_summary\": \"Fix login crash on iOS\"\n" ++
  "- \"agent_summary\": \"Fixed nil pointer in auth flow\"\n\n" ++
  "Be this concise."

/-- `generate_summary`: truncate the conversation, build the prompt, set
the recursion marker in the child environment, spawn under the PTY, and
map each outcome to its summary string exactly as the source does.
On timeout the process is killed and waited on and the partial bytes
are discarded (lines 318-322); on exit the output is sanitized and the
success condition is exit code 0 with non-empty stripped output
(lines 329-348). -/
def generate_summary (conversationText : String) (ctx : ProjectContext)
    (env : List (String × String)) (exec : ExecOutcome) : GenResult :=
  let text := truncConv conversationText
  let prompt := summaryPrompt text ctx
  let env' := envSet env "CLAUDE_HOOK_SKIP" "1"
  match exec with
  | .notFound =>
      ⟨[], "USER asked: (see conversation)\nAGENT: (Claude CLI not found)"⟩
  | .ptyError msg =>
      ⟨[], "USER asked: (see conversation)\nAGENT: (PTY error: " ++ msg ++ ")"⟩
  | .timeout _ =>
      ⟨[.spawnClaude env' prompt, .killProc, .waitProc],
       "USER asked: (see conversation)\nAGENT: (Claude CLI timeout after " ++
         natDec timeoutDuration ++ "s)"⟩
  | .exited code out =>
      let clean := sanitizeClean out
      if code = 0 ∧ pyStripL clean ≠ [] then
        ⟨[.spawnClaude env' prompt], ⟨pyStripL clean⟩⟩
      else
        ⟨[.spawnClaude env' prompt],
         "USER asked: (see conversation)\nAGENT: (Claude CLI error: " ++
           intDec code ++ ")"⟩

/-! ## The child summary pipeline (`_run_summary_pipeline`, lines 362-451)

The pipeline runs inside the forked child's `try/except Exception`
wrapper (lines 514-522), so an uncaught Python exception simply ends
the child after the effects performed so far; the model returns the
truncated effect list at each crash point. -/

/-- The per-session conversation file path (f-string, line 365). -/
def tempFilePath (sessionId : JVal) : String :=
  "/tmp/claude-" ++ pyStr sessionId ++ "-conversation.json"

/-- World state for one stop-hook invocation. `assistantResponse` is the
external collaborator result of `extract_last_assistant_response` (the
spec scopes transcript parsing out of the core; `""` covers a missing
or unparseable transcript and no assistant entry). -/
structure StopWorld where
  env : List (String × String)
  stdin : Except Unit JVal
  osCwd : String
  convFile : Option (Option JVal)
  assistantResponse : String
  projectContext : ProjectContext
  exec : ExecOutcome
  now : String

def run_summary_pipeline (w : StopWorld) (sessionId : JVal)
    (cwdFromInput : JVal) : List Eff :=
  match w.convFile with
  | none => []
  | some none => []
  | some (some conv) =>
      match conv with
      | .obj cd =>
          let cwdV := jGetD cd "cwd" cwdFromInput
          let exchanges := jGetD cd "exchanges" (.arr [])
          if !pyTruthy cwdV || !pyTruthy exchanges then
            if pyTruthy cwdV then
              match cwdV with
              | .str cwd => stopWriteSessionFile sessionId cwd "waiting" none w.now
              | _ => [.mkdirSessions]
            else []
          else if w.assistantResponse = "" then
            match cwdV with
            | .str cwd => stopWriteSessionFile sessionId cwd "waiting" none w.now
            | _ => [.mkdirSessions]
          else
            match exchanges with
            | .arr exs =>
                match exs.getLast? with
                | none => []
                | some lastV =>
                    match lastV with
                    | .obj ld =>
                        let exs' :=
                          match jGetD ld "assistant" .null with
                          | .null =>
                              exs.dropLast ++
                                [JVal.obj (objSet ld "assistant"
                                  (.str w.assistantResponse))]
                          | _ => exs
                        let conv' := JVal.obj (objSet cd "exchanges" (.arr exs'))
                        let convW := [Eff.writeConvFile (tempFilePath sessionId) conv']
                        match build_conversation_text exs' with
                        | .error _ => convW
                        | .ok text =>
                            match cwdV with
                            | .str cwd =>
                                if text = "" then
                                  convW ++
                                    stopWriteSessionFile sessionId cwd "waiting" none w.now
                                else
                                  let g := generate_summary text w.projectContext
                                    w.env w.exec
                                  convW ++ g.effects ++
                                    [.mkdirDotClaude (cwd ++ "/.claude"),
                                     .writeSummaryTxt (cwd ++ "/.claude/SUMMARY.txt")
                                       g.summary] ++
                                    stopWriteSessionFile sessionId cwd "waiting"
                                      (some g.summary) w.now
                            | _ =>
                                if text = "" then convW ++ [.mkdirSessions]
                                else convW
                    | _ => []
            | _ => []
      | _ => []

/-- One full stop-hook invocation: recursion-guard check first, then the
PATH fix-up (an environment mutation), stdin parse, the synchronous
pre-fork `waiting` write, the fork, and the detached child pipeline.
Returns (effects, hook exit code); an uncaught exception is exit 1.
`transcript_path` from the payload only feeds the collaborator-modelled
transcript extraction and so does not appear explicitly. -/
def stopMainRun (w : StopWorld) : List Eff × Nat :=
  if envGet w.env "CLAUDE_HOOK_SKIP" = some "1" then ([], 0)
  else
    let pathEff := [Eff.setPathEnv]
    match w.stdin with
    | .error _ => (pathEff, 0)
    | .ok v =>
        match v with
        | .obj d =>
            let sessionId := jGetD d "session_id" (.str "unknown")
            let cwdV := jGetD d "cwd" (.str w.osCwd)
            match cwdV with
            | .str cwd =>
                (pathEff ++ stopWriteSessionFile sessionId cwd "waiting" none w.now
                   ++ run_summary_pipeline w sessionId cwdV, 0)
            | _ => (pathEff ++ [.mkdirSessions], 1)
        | _ => (pathEff, 1)

/-! ## `user_prompt_submit.py` main (lines 61-163) -/

def MAX_EXCHANGES : Nat := 5

/-- The pending exchange appended on each prompt submission (line 133). -/
def newExchange (prompt : JVal) : JVal :=
  .obj [("user", prompt), ("assistant", .null)]

/-- The conversation-window update of `main` (lines 137-141): append the
pending exchange, keep only the last `MAX_EXCHANGES`. -/
def upsTrimmedExchanges (exs : List JVal) (prompt : JVal) : List JVal :=
  pyTakeLast MAX_EXCHANGES (exs ++ [newExchange prompt])

/-- World state for one prompt-submission invocation. -/
structure UpsWorld where
  env : List (String × String)
  stdin : Except Unit JVal
  osCwd : String
  convFile : Option (Option JVal)
  sessionFile : Option (Option JVal)
  now : String

def upsMainRun (w : UpsWorld) : List Eff × Nat :=
  if envGet w.env "CLAUDE_HOOK_SKIP" = some "1" then ([], 0)
  else
    let pathEff := [Eff.setPathEnv]
    match w.stdin with
    | .error _ => (pathEff, 0)
    | .ok v =>
        match v with
        | .obj d =>
            let prompt := jGetD d "prompt" (.str "")
            let sessionId := jGetD d "session_id" (.str "unknown")
            let cwdV := jGetD d "cwd" (.str w.osCwd)
            -- The debug_log call at line 105 evaluates its f-string
            -- argument eagerly, before the falsy check and regardless of
            -- the debug toggle: `prompt[:100]` slices the value, which
            -- raises an uncaught TypeError unless the prompt is a string
            -- or a list (None, bools, numbers and dicts are not
            -- sliceable), exiting the hook with a nonzero status.
            match prompt with
            | .str _ | .arr _ =>
                if !pyTruthy prompt then (pathEff, 0)
                else
                  let conversation : JVal :=
                    match w.convFile with
                    | some (some cv) => cv
                    | _ => .obj [("cwd", cwdV), ("session_id", sessionId),
                                 ("exchanges", .arr [])]
                  match conversation with
                  | .obj cd =>
                      match jGet? cd "exchanges" with
                      | some (.arr exs) =>
                          let exs' := upsTrimmedExchanges exs prompt
                          let conv' := JVal.obj (objSet (objSet cd "exchanges"
                            (.arr exs')) "cwd" cwdV)
                          let convW :=
                            [Eff.writeConvFile (tempFilePath sessionId) conv']
                          match cwdV with
                          | .str cwd =>
                              (pathEff ++ convW ++
                                 upsWriteSessionFile sessionId cwd "working" none
                                   w.sessionFile w.now, 0)
                          | _ => (pathEff ++ convW ++ [.mkdirSessions], 1)
                      | some _ => (pathEff, 1)
                      | none => (pathEff, 1)
                  | _ => (pathEff, 1)
            | _ => (pathEff, 1)
        | _ => (pathEff, 1)

/-! ## Observable file states during a status-store write (for the
atomicity claim)

Both `write_session_file` implementations replace the record with
`open(session_file, "w")` followed by `json.dump(...)`: the `open`
truncates the file to empty, and only then is the serialized record
written.  A reader concurrent with the write can therefore observe the
truncated state (and, at OS write granularity, prefixes of the record);
the model exposes the two states every such write passes through. -/
def writeObservableStates (content : String) : List String := ["", content]

/-! ## Helper definitions for the claims -/

/-- Store/file/process effects, as opposed to the in-process environment
mutation of the PATH fix-up. -/
def effIsWrite : Eff → Bool
  | .setPathEnv => false
  | _ => true

/-- The last effect of a trace, when it is a stop-hook session-record
write (the "final status write"). -/
def lastStopRecord (effs : List Eff) : Option StopSessionData :=
  match effs.getLast? with
  | some (.writeStopRecord _ d) => some d
  | _ => none

/-- Spec-side formulation for C10, following the claim's words: an
exchange contributes exactly when its `user` and `assistant` fields are
both present and truthy, formatted as a `USER:` line then an `AGENT:`
line. -/
def specFormatExchange (ex : JVal) : Option String :=
  match ex with
  | .obj d =>
      if pyTruthy (jGetD d "user" .null) && pyTruthy (jGetD d "assistant" .null)
      then some ("USER: " ++ pyStr (jGetD d "user" .null) ++
                 "\nAGENT: " ++ pyStr (jGetD d "assistant" .null))
      else none
  | _ => none

/-- Shape condition under which the prompt-submission hook cannot hit an
uncaught exception: either the prompt is falsy (early clean exit) or
whatever the conversation file holds is a dict with an `exchanges`
list. -/
def upsShapeOk (w : UpsWorld) (d : List (String × JVal)) : Prop :=
  ¬ pyTruthy (jGetD d "prompt" (.str "")) = true ∨
    (∀ cv, w.convFile = some (some cv) →
      ∃ cd exs, cv = .obj cd ∧ jGet? cd "exchanges" = some (.arr exs))

/-- The prompt value survives the eager `prompt[:100]` slice in the
debug f-string at user_prompt_submit.py line 105 (evaluated before the
falsy check and regardless of the debug toggle): only strings and lists
are sliceable in Python; `None`, booleans, numbers and dicts raise an
uncaught `TypeError` there. -/
def promptSliceable (p : JVal) : Prop :=
  (∃ s, p = JVal.str s) ∨ (∃ items, p = JVal.arr items)

/-! ## Concrete sample data used by counterexamples and witnesses -/

def ctxEmpty : ProjectContext := ⟨"", "", ""⟩

/-- A well-formed conversation file: one exchange awaiting its
assistant response. -/
def convSample : JVal :=
  .obj [("cwd", .str "/p"), ("session_id", .str "s1"),
        ("exchanges", .arr [.obj [("user", .str "add login"),
                                  ("assistant", .null)]])]

/-- Baseline stop-hook world: parseable object payload, conversation
file present, assistant response found, external command exits 1. -/
def wStop0 : StopWorld :=
  { env := [], stdin := .ok (.obj [("session_id", .str "s1"), ("cwd", .str "/p")]),
    osCwd := "/o", convFile := some (some convSample),
    assistantResponse := "added login page", projectContext := ctxEmpty,
    exec := .exited 1 ['j', 'u', 'n', 'k'], now := "2026-01-02T03:04:05" }

/-- Same world, but the conversation file is missing. -/
def wStopNoConv : StopWorld := { wStop0 with convFile := none }

/-- Same world with a payload that parses to a JSON array, not an object. -/
def wStopArr : StopWorld := { wStop0 with stdin := .ok (.arr []) }

/-- Stop world with the recursion-guard marker set. -/
def wStopGuard : StopWorld :=
  { wStop0 with env := [("CLAUDE_HOOK_SKIP", "1"), ("PATH", "/bin")] }

/-- Stop world whose external command times out. -/
def wStopTimeout : StopWorld := { wStop0 with exec := .timeout ['p', 'a', 'r'] }

/-- Stop world with unparseable stdin. -/
def wStopBadStdin : StopWorld := { wStop0 with stdin := .error () }

/-- Baseline prompt-submission world. -/
def wUps0 : UpsWorld :=
  { env := [], stdin := .ok (.obj [("prompt", .str "add login"),
      ("session_id", .str "s1"), ("cwd", .str "/p")]),
    osCwd := "/o", convFile := none, sessionFile := none,
    now := "2026-01-02T03:04:05" }

/-- Prompt-submission world with the recursion-guard marker set. -/
def wUpsGuard : UpsWorld :=
  { wUps0 with env := [("CLAUDE_HOOK_SKIP", "1"), ("PATH", "/bin")] }

/-- Prompt-submission world with unparseable stdin. -/
def wUpsBadStdin : UpsWorld := { wUps0 with stdin := .error () }

/-- Prompt-submission world with an existing session record on disk that
carries a non-empty summary. -/
def wUpsPrev : UpsWorld :=
  { wUps0 with sessionFile := some (some (.obj
      [("sessionId", .str "s0"), ("cwd", .str "/p"),
       ("status", .str "waiting"), ("summary", .str "previous summary"),
       ("updatedAt", .str "earlier")])) }

/-- Sample records for the serialization round trip of the atomicity
claim: the immediate pre-fork record and a final record carrying a
legacy-format summary (exercising string escapes in the dump). -/
def c5RecPlain : StopSessionData :=
  stopWriteData (.str "abc") "/home/u/proj" "waiting" none "2026-01-02T03:04:05"

def c5RecSummary : StopSessionData :=
  stopWriteData (.str "abc") "/home/u/proj" "waiting"
    (some "USER asked: add login\nAGENT: added login page") "2026-01-02T03:04:06"

/-! # Theorems -/

theorem envGet_envSet (env : List (String × String)) (k v : String) :
    envGet (envSet env k v) k = some v := by
  simp [envGet, envSet, List.find?]

/-- C2 (counterexample): the completion hook's `write_session_file`
performs no read-before-write merge — it takes no disk state at all —
so with an existing record whose summary is `"previous summary"` and an
incoming call supplying no summary, the record it writes has summary
`None` instead of the preserved `"previous summary"`. -/
theorem C2_counterexample :
    (stopWriteData (.str "s1") "/p" "waiting" none "2026-01-02T03:04:05").summary
        = none ∧
    (none : Option String) ≠ some "previous summary" :=
  ⟨rfl, by simp⟩

/-- C2 (amended): the read-before-write summary merge exists only in the
prompt-submission hook's `write_session_file`: when the incoming call
supplies no summary and the existing file parses to a dict, the written
record's summary is exactly the existing record's `summary` field. -/
theorem C2_ups_preserves_summary (sessionId : JVal) (cwd status : String)
    (d : List (String × JVal)) (now : String) :
    (upsWriteData sessionId cwd status none (some (some (.obj d))) now).summary =
      jGetD d "summary" .null := rfl

/-- C4: on timeout the spawned process is killed and waited on (no
lingering child), the captured partial bytes are discarded — the
returned summary is a constant timeout placeholder independent of
them — and the session record written from that summary has status
`waiting` with the timeout-marked placeholder in its agent-summary
field. -/
theorem C4_timeout_kill_wait_discard (partialOut : List Char)
    (text : String) (ctx : ProjectContext) (env : List (String × String))
    (sessionId : JVal) (cwd now : String) :
    (generate_summary text ctx env (.timeout partialOut)).effects =
      [.spawnClaude (envSet env "CLAUDE_HOOK_SKIP" "1")
        (summaryPrompt (truncConv text) ctx), .killProc, .waitProc] ∧
    (generate_summary text ctx env (.timeout partialOut)).summary =
      "USER asked: (see conversation)\nAGENT: (Claude CLI timeout after 90s)" ∧
    (stopWriteData sessionId cwd "waiting"
        (some (generate_summary text ctx env (.timeout partialOut)).summary)
        now).status = "waiting" ∧
    (stopWriteData sessionId cwd "waiting"
        (some (generate_summary text ctx env (.timeout partialOut)).summary)
        now).agentSummary = .str "(Claude CLI timeout after 90s)" :=
  ⟨rfl, rfl, rfl, rfl⟩

/-- C5 (counterexample): the status-store write is not all-or-nothing:
`open(file, "w")` truncates before `json.dump` writes, so a concurrent
reader can observe the empty state, which is not a parseable
SessionRecord. -/
theorem C5_counterexample :
    "" ∈ writeObservableStates (jsonDumpIndent2 (stopDataJson c5RecPlain)) ∧
    jsonParse "" = none :=
  ⟨by simp [writeObservableStates], rfl⟩

set_option maxRecDepth 100000 in
/-- C5 (amended): every write passes through the truncated-empty state
and then the complete serialized record — whole-record replacement, but
not atomic; a reader at quiescence gets the full record back, verified
by parse round trips on the two record shapes the completion hook
writes (no summary, and a legacy-format summary). -/
theorem C5_truncate_then_full (d : StopSessionData) :
    writeObservableStates (jsonDumpIndent2 (stopDataJson d)) =
      ["", jsonDumpIndent2 (stopDataJson d)] ∧
    jsonParse (jsonDumpIndent2 (stopDataJson c5RecPlain)) =
      some (stopDataJson c5RecPlain) ∧
    jsonParse (jsonDumpIndent2 (stopDataJson c5RecSummary)) =
      some (stopDataJson c5RecSummary) :=
  ⟨rfl, rfl, rfl⟩

/-- Head of a non-empty `dropWhile` result never satisfies the predicate. -/
theorem dropWhile_head_false {α : Type} {p : α → Bool} :
    ∀ {l : List α} {b : α} {t : List α}, l.dropWhile p = b :: t → p b = false := by
  intro l
  induction l with
  | nil => intro b t h; simp [List.dropWhile] at h
  | cons a l' ih =>
      intro b t h
      by_cases hp : p a
      · rw [List.dropWhile_cons, if_pos hp] at h; exact ih h
      · rw [List.dropWhile_cons, if_neg hp] at h
        cases h
        simpa using hp

/-- `pyStripL` written with Mathlib's right-drop. -/
theorem pyStripL_eq_rdrop_drop (l : List Char) :
    pyStripL l = List.rdropWhile isPySpace (l.dropWhile isPySpace) := rfl

/-- Stripping is idempotent. -/
theorem pyStripL_idem (l : List Char) :
    pyStripL (pyStripL l) = pyStripL l := by
  rw [pyStripL_eq_rdrop_drop, pyStripL_eq_rdrop_drop]
  have hdw : (List.rdropWhile isPySpace (l.dropWhile isPySpace)).dropWhile
      isPySpace = List.rdropWhile isPySpace (l.dropWhile isPySpace) := by
    cases hB : List.rdropWhile isPySpace (l.dropWhile isPySpace) with
    | nil => rfl
    | cons b B' =>
        obtain ⟨t, ht⟩ := List.rdropWhile_prefix isPySpace (l.dropWhile isPySpace)
        rw [hB] at ht
        have hpb : isPySpace b = false := by
          apply dropWhile_head_false (l := l.dropWhile isPySpace) (t := B' ++ t)
          rw [List.dropWhile_idempotent, ← ht]
          simp
        rw [List.dropWhile_cons, if_neg (by simp [hpb])]
  rw [hdw, List.rdropWhile_idempotent]

/-- The stripped list is a sublist of the original. -/
theorem pyStripL_sublist (l : List Char) : List.Sublist (pyStripL l) l := by
  rw [pyStripL_eq_rdrop_drop]
  exact (List.rdropWhile_prefix isPySpace _).sublist.trans
    (List.dropWhile_suffix isPySpace).sublist

/-- Pass 1 leaves escape-free text unchanged (any fuel). -/
theorem pass1Fuel_no_esc (f : Nat) : ∀ (l : List Char),
    (∀ c ∈ l, c ≠ '\x1B') → pass1Fuel f l = l := by
  induction f with
  | zero => intro l _; rfl
  | succ f ih =>
      intro l h
      cases l with
      | nil => rfl
      | cons c cs =>
          have hc : c ≠ '\x1B' := h c (by simp)
          simp [pass1Fuel, hc, ih cs (fun x hx => h x (by simp [hx]))]

theorem pass1_no_esc (l : List Char) (h : ∀ c ∈ l, c ≠ '\x1B') :
    pass1 l = l :=
  pass1Fuel_no_esc _ l h

/-- Pass 2 leaves newline-free text unchanged (its pattern needs `\n`). -/
theorem pass2_no_nl : ∀ (l : List Char),
    (∀ c ∈ l, c ≠ '\n') → pass2 l = l := by
  intro l
  induction l with
  | nil => intro _; rfl
  | cons c cs ih =>
      intro h
      have hm : pass2Match (c :: cs) = false := by
        have hc : c ≠ '\n' := h c (by simp)
        by_cases hr : c = '\r'
        · subst hr
          cases cs with
          | nil => simp [pass2Match]
          | cons c2 cs2 =>
              have hc2 : c2 ≠ '\n' := h c2 (by simp)
              simp [pass2Match, hc2]
        · simp [pass2Match, hr, hc]
      simp [pass2, hm, ih (fun x hx => h x (by simp [hx]))]

/-- C6 (amended): the sanitizer is idempotent on text free of escape
characters and line breaks (the escape pass and the trailing-garbage
pass are then the identity and stripping is idempotent); in general it
is not idempotent — re-application can remove one further trailing
digit-or-semicolon garbage line, as the counterexample shows. -/
theorem C6_idempotent_on_plain (l : List Char)
    (hE : ∀ c ∈ l, c ≠ '\x1B') (hN : ∀ c ∈ l, c ≠ '\n') :
    sanitizeOutput (sanitizeOutput l) = sanitizeOutput l := by
  have h1 : sanitizeOutput l = pyStripL l := by
    unfold sanitizeOutput sanitizeClean
    rw [pass1_no_esc l hE, pass2_no_nl l hN]
  have hsub : ∀ c ∈ pyStripL l, c ∈ l :=
    fun c hc => (pyStripL_sublist l).subset hc
  have h2 : sanitizeOutput (pyStripL l) = pyStripL (pyStripL l) := by
    unfold sanitizeOutput sanitizeClean
    rw [pass1_no_esc _ (fun c hc => hE c (hsub c hc)),
        pass2_no_nl _ (fun c hc => hN c (hsub c hc))]
  rw [h1, h2, pyStripL_idem]

/-- Witness for C6 at a concrete escape- and newline-free output. -/
theorem C6_idempotent_on_plain_witness :
    sanitizeOutput (sanitizeOutput ("  ok result  ".data)) =
      sanitizeOutput ("  ok result  ".data) :=
  C6_idempotent_on_plain _ (by decide) (by decide)

/-- C7: after any submission in any sequence of prompt submissions, the
stored exchange window has at most `MAX_EXCHANGES` (5) entries,
whatever was in the conversation file before. -/
theorem C7_window_bounded (exs : List JVal) (ps : List JVal) (p : JVal) :
    ((ps ++ [p]).foldl upsTrimmedExchanges exs).length ≤ MAX_EXCHANGES := by
  rw [List.foldl_append]
  simp only [List.foldl_cons, List.foldl_nil]
  simp only [upsTrimmedExchanges, pyTakeLast, MAX_EXCHANGES, List.length_drop]
  omega

/-- C1 (counterexample): with the conversation file missing, the child
summary pipeline terminates without performing any effect at all — in
particular without a final `waiting` status write — so not every child
branch ends in a `waiting` write (the invariant is carried by the
pre-fork write instead). -/
theorem C1_counterexample :
    run_summary_pipeline wStopNoConv (.str "s1") (.str "/p") = [] := rfl

/-- C1 (amended): in a non-guarded invocation of the stop hook whose
input parses to a JSON object (with its `cwd` field absent or a
string), a `waiting` status write for the session's key always occurs —
it is performed synchronously before the fork, so it happens even if
the child summary pipeline does nothing or fails; the child's
early-exit branches (conversation file missing or unreadable, missing
cwd) produce no further write, so the invariant is carried by the
pre-fork write. -/
theorem C1_waiting_write_always (w : StopWorld) (d : List (String × JVal))
    (cwd : String)
    (hg : ¬ envGet w.env "CLAUDE_HOOK_SKIP" = some "1")
    (hs : w.stdin = .ok (.obj d))
    (hc : jGetD d "cwd" (.str w.osCwd) = .str cwd) :
    ∃ r, Eff.writeStopRecord (sessionFilePath cwd) r ∈ (stopMainRun w).1 ∧
      r.status = "waiting" := by
  refine ⟨stopWriteData (jGetD d "session_id" (.str "unknown")) cwd "waiting"
    none w.now, ?_, rfl⟩
  simp [stopMainRun, hg, hs, hc, stopWriteSessionFile]

/-- Witness for C1 at a concrete world (conversation file present,
command exits 1): the pre-fork waiting write is in the trace. -/
theorem C1_waiting_write_always_witness :
    ∃ r, Eff.writeStopRecord (sessionFilePath "/p") r ∈ (stopMainRun wStop0).1 ∧
      r.status = "waiting" :=
  C1_waiting_write_always wStop0
    [("session_id", .str "s1"), ("cwd", .str "/p")] "/p"
    (by simp [wStop0, envGet]) rfl rfl

/-- C3 (counterexample): when the external command exits with code 1,
the finally-written session record has status `waiting` but its
`userSummary`/`agentSummary` fields are NOT empty: they carry the
parsed placeholder text `(see conversation)` / `(Claude CLI error: 1)`. -/
theorem C3_counterexample :
    (lastStopRecord (stopMainRun wStop0).1).map
        (fun r => (r.status, r.userSummary, r.agentSummary)) =
      some ("waiting", .str "(see conversation)", .str "(Claude CLI error: 1)") ∧
    JVal.str "(Claude CLI error: 1)" ≠ JVal.null :=
  ⟨rfl, fun h => nomatch h⟩

/-- C6 (counterexample): the sanitizer is not idempotent: on
`"a\n1;2\n3;4"` the trailing-garbage pass removes `"\n3;4"`, and a
second application removes `"\n1;2"` as well. -/
theorem C6_counterexample :
    sanitizeOutput (sanitizeOutput ("a\n1;2\n3;4".data)) ≠
      sanitizeOutput ("a\n1;2\n3;4".data) := by decide

/-- C8: with the recursion-guard marker `CLAUDE_HOOK_SKIP=1` present in
the environment, each hook returns immediately with exit 0 and no
effects at all — before the PATH mutation, the stdin read, and any file
or status write (debug-log diagnostics are out of scope by the spec);
and every spawn of the external command in `generate_summary` passes a
child environment in which the marker is set, so a nested invocation is
inert. -/
theorem C8_recursion_guard :
    (∀ w : StopWorld, envGet w.env "CLAUDE_HOOK_SKIP" = some "1" →
      stopMainRun w = ([], 0)) ∧
    (∀ w : UpsWorld, envGet w.env "CLAUDE_HOOK_SKIP" = some "1" →
      upsMainRun w = ([], 0)) ∧
    (∀ (text : String) (ctx : ProjectContext) (env : List (String × String))
        (exec : ExecOutcome) (env' : List (String × String)) (p : String),
      Eff.spawnClaude env' p ∈ (generate_summary text ctx env exec).effects →
      envGet env' "CLAUDE_HOOK_SKIP" = some "1") := by
  refine ⟨?_, ?_, ?_⟩
  · intro w h; unfold stopMainRun; rw [if_pos h]
  · intro w h; unfold upsMainRun; rw [if_pos h]
  · intro text ctx env exec env' p hmem
    cases exec with
    | notFound => simp [generate_summary] at hmem
    | ptyError msg => simp [generate_summary] at hmem
    | timeout po =>
        simp [generate_summary] at hmem
        obtain ⟨he, -⟩ := hmem
        rw [he]; exact envGet_envSet env "CLAUDE_HOOK_SKIP" "1"
    | exited code out =>
        by_cases hc : code = 0 ∧ pyStripL (sanitizeClean out) ≠ []
        · simp [generate_summary, hc] at hmem
          obtain ⟨he, -⟩ := hmem
          rw [he]; exact envGet_envSet env "CLAUDE_HOOK_SKIP" "1"
        · simp [generate_summary, hc] at hmem
          obtain ⟨he, -⟩ := hmem
          rw [he]; exact envGet_envSet env "CLAUDE_HOOK_SKIP" "1"

/-- Witness for C8 at concrete inputs: guard-set worlds for both hooks,
and the marker read back from the environment of a concrete spawn. -/
theorem C8_recursion_guard_witness :
    stopMainRun wStopGuard = ([], 0) ∧ upsMainRun wUpsGuard = ([], 0) ∧
    envGet (envSet [] "CLAUDE_HOOK_SKIP" "1") "CLAUDE_HOOK_SKIP" = some "1" :=
  ⟨C8_recursion_guard.1 wStopGuard rfl,
   C8_recursion_guard.2.1 wUpsGuard rfl,
   C8_recursion_guard.2.2 "t" ctxEmpty [] (.timeout [])
     (envSet [] "CLAUDE_HOOK_SKIP" "1")
     (summaryPrompt (truncConv "t") ctxEmpty)
     (by simp [generate_summary])⟩

/-- C10: the conversation text built for summarization consists of
exactly the exchanges whose `user` and `assistant` fields are both
present and truthy, each as a `USER:` line followed by an `AGENT:`
line, joined by blank lines; exchanges with a missing, `None`, or
empty-string field are omitted entirely. -/
theorem C10_conversation_text_spec (exs : List JVal)
    (h : ∀ ex ∈ exs, ∃ d, ex = JVal.obj d) :
    build_conversation_text exs =
      .ok (String.intercalate "\n\n" (exs.filterMap specFormatExchange)) := by
  suffices hp : ∀ (l : List JVal), (∀ ex ∈ l, ∃ d, ex = JVal.obj d) →
      bctParts l = .ok (l.filterMap specFormatExchange) by
    simp [build_conversation_text, hp exs h, Except.map]
  intro l
  induction l with
  | nil => intro _; rfl
  | cons ex rest ih =>
      intro hl
      obtain ⟨d, rfl⟩ := hl ex (by simp)
      have hr := ih (fun e he => hl e (by simp [he]))
      by_cases hud : (pyTruthy (jGetD d "user" .null) &&
          pyTruthy (jGetD d "assistant" .null)) = true
      · simp [bctParts, hr, specFormatExchange, hud, List.filterMap_cons]
      · simp [bctParts, hr, specFormatExchange, hud, List.filterMap_cons]

/-- Witness for C10 at a concrete list: one complete exchange, one with
a `None` assistant (omitted), one with an empty-string user (omitted). -/
theorem C10_conversation_text_spec_witness :
    build_conversation_text
        [JVal.obj [("user", .str "add login"), ("assistant", .str "added page")],
         JVal.obj [("user", .str "pending"), ("assistant", .null)],
         JVal.obj [("user", .str ""), ("assistant", .str "x")]] =
      .ok (String.intercalate "\n\n"
        ([JVal.obj [("user", .str "add login"), ("assistant", .str "added page")],
          JVal.obj [("user", .str "pending"), ("assistant", .null)],
          JVal.obj [("user", .str ""), ("assistant", .str "x")]].filterMap
            specFormatExchange)) :=
  C10_conversation_text_spec _ (by
    intro ex hex
    simp only [List.mem_cons, List.not_mem_nil, or_false] at hex
    rcases hex with rfl | rfl | rfl
    · exact ⟨_, rfl⟩
    · exact ⟨_, rfl⟩
    · exact ⟨_, rfl⟩)

theorem strDataAppend (a b : String) : (a ++ b).data = a.data ++ b.data := rfl

theorem decDigit_isDigit (n : Nat) (h : n < 10) : (decDigit n).isDigit = true := by
  interval_cases n <;> decide

theorem natDecAux_digit :
    ∀ (f n : Nat), ∀ c ∈ natDecAux f n, c.isDigit = true := by
  intro f
  induction f with
  | zero => intro n c hc; simp [natDecAux] at hc
  | succ f ih =>
      intro n c hc
      by_cases h : n < 10
      · rw [natDecAux, if_pos h] at hc
        simp at hc
        exact hc ▸ decDigit_isDigit n h
      · rw [natDecAux, if_neg h] at hc
        rcases List.mem_append.mp hc with h1 | h2
        · exact ih _ c h1
        · simp at h2
          exact h2 ▸ decDigit_isDigit _ (Nat.mod_lt _ (by omega))

theorem intDec_chars (i : Int) :
    ∀ c ∈ (intDec i).data, c.isDigit = true ∨ c = '-' := by
  intro c hc
  unfold intDec at hc
  by_cases h : i < 0
  · rw [if_pos h, strDataAppend] at hc
    rcases List.mem_append.mp hc with h1 | h2
    · right; simpa using h1
    · left; exact natDecAux_digit _ _ c h2
  · rw [if_neg h] at hc
    left; exact natDecAux_digit _ _ c hc

theorem digit_or_dash_ne_nl {c : Char} (h : c.isDigit = true ∨ c = '-') :
    c ≠ '\n' := by
  rintro rfl
  rcases h with h | h <;> simp at h

theorem splitNl_no_nl : ∀ (l : List Char),
    (∀ c ∈ l, c ≠ '\n') → splitNl l = [l] := by
  intro l
  induction l with
  | nil => intro _; rfl
  | cons c cs ih =>
      intro h
      have hc : c ≠ '\n' := h c (by simp)
      rw [splitNl]
      simp only [hc, if_false, ih (fun x hx => h x (by simp [hx]))]

theorem splitNl_append (l1 l2 : List Char) (h : ∀ c ∈ l1, c ≠ '\n') :
    splitNl (l1 ++ '\n' :: l2) = l1 :: splitNl l2 := by
  induction l1 with
  | nil => simp [splitNl]
  | cons c cs ih =>
      have hc : c ≠ '\n' := h c (by simp)
      rw [List.cons_append, splitNl]
      simp only [hc, if_false, ih (fun x hx => h x (by simp [hx]))]

theorem pyStripL_of_ends (a b : Char) (m : List Char)
    (ha : isPySpace a = false) (hb : isPySpace b = false) :
    pyStripL (a :: (m ++ [b])) = a :: (m ++ [b]) := by
  unfold pyStripL
  rw [List.dropWhile_cons, if_neg (by simp [ha])]
  rw [show (a :: (m ++ [b])).reverse = b :: (m.reverse ++ [a]) by simp]
  rw [List.dropWhile_cons, if_neg (by simp [hb])]
  simp

/-- `json.loads` fails on any text starting with `U` (the legacy summary
format), triggering the line-prefix fallback. -/
theorem jsonParse_head_U (rest : List Char) : jsonParse ⟨'U' :: rest⟩ = none := by
  have hskip : skipWs ('U' :: rest) = 'U' :: rest := by
    unfold skipWs
    rw [List.dropWhile_cons, if_neg (by simp [isJsonWs])]
  unfold jsonParse
  simp only [List.length_cons]
  rw [pValue, hskip]
  simp [isJsonWs]

/-- A line starting `AGENT:` hits the legacy extraction's second arm,
whatever follows the label. -/
theorem legacyLine_agent (st : JVal × JVal) (tail : List Char) :
    legacyLine st ('A' :: 'G' :: 'E' :: 'N' :: 'T' :: ':' :: tail) =
      (st.1, .str (pyStrip (pyReplace
        ⟨'A' :: 'G' :: 'E' :: 'N' :: 'T' :: ':' :: tail⟩ "AGENT:" ""))) := by
  unfold legacyLine
  simp [List.isPrefixOf]

/-- Parsing the CLI-error placeholder summary: `json.loads` fails (it
starts with `U`), so the legacy line-prefix extraction runs, setting
`user_summary` from the first line and `agent_summary` from the second. -/
theorem stopParseSummary_cli_error (dch : List Char)
    (hd : ∀ c ∈ dch, c.isDigit = true ∨ c = '-') :
    stopParseSummary
        ⟨"USER asked: (see conversation)\nAGENT: (Claude CLI error: ".data ++
          dch ++ [')']⟩ =
      (.str "(see conversation)",
       .str (pyStrip (pyReplace
         ⟨"AGENT: (Claude CLI error: ".data ++ dch ++ [')']⟩ "AGENT:" ""))) := by
  obtain ⟨T, hT⟩ : ∃ t,
      "USER asked: (see conversation)\nAGENT: (Claude CLI error: ".data =
        'U' :: t := ⟨_, rfl⟩
  have hstrip :
      pyStripL ("USER asked: (see conversation)\nAGENT: (Claude CLI error: ".data
        ++ dch ++ [')']) =
      "USER asked: (see conversation)\nAGENT: (Claude CLI error: ".data
        ++ dch ++ [')'] := by
    rw [hT]
    rw [show ('U' :: T) ++ dch ++ [')'] = 'U' :: ((T ++ dch) ++ [')']) by simp]
    rw [pyStripL_of_ends 'U' ')' (T ++ dch) (by decide) (by decide)]
  have hps' : pyStrip
      ⟨"USER asked: (see conversation)\nAGENT: (Claude CLI error: ".data ++
        dch ++ [')']⟩ =
      ⟨"USER asked: (see conversation)\nAGENT: (Claude CLI error: ".data ++
        dch ++ [')']⟩ :=
    congrArg String.mk hstrip
  have hfence : strStartsWith
      ⟨"USER asked: (see conversation)\nAGENT: (Claude CLI error: ".data ++
        dch ++ [')']⟩ fence3 = false := by
    rw [show ("USER asked: (see conversation)\nAGENT: (Claude CLI error: ".data
      ++ dch ++ [')'] : List Char) = 'U' :: (T ++ dch ++ [')']) by rw [hT]; simp]
    simp [strStartsWith, fence3, List.isPrefixOf]
  have hparse : jsonParse
      ⟨"USER asked: (see conversation)\nAGENT: (Claude CLI error: ".data ++
        dch ++ [')']⟩ = none := by
    rw [show ("USER asked: (see conversation)\nAGENT: (Claude CLI error: ".data
      ++ dch ++ [')'] : List Char) = 'U' :: (T ++ dch ++ [')']) by rw [hT]; simp]
    exact jsonParse_head_U _
  have hsf : stripFences
      ⟨"USER asked: (see conversation)\nAGENT: (Claude CLI error: ".data ++
        dch ++ [')']⟩ =
      ⟨"USER asked: (see conversation)\nAGENT: (Claude CLI error: ".data ++
        dch ++ [')']⟩ := by
    simp only [stripFences]
    rw [hps', hfence]
    simp
  have hlegacy : legacyExtract
      ⟨"USER asked: (see conversation)\nAGENT: (Claude CLI error: ".data ++
        dch ++ [')']⟩ =
      (.str "(see conversation)",
       .str (pyStrip (pyReplace
         ⟨"AGENT: (Claude CLI error: ".data ++ dch ++ [')']⟩ "AGENT:" ""))) := by
    simp only [legacyExtract]
    rw [hps']
    show (splitNl ("USER asked: (see conversation)\nAGENT: (Claude CLI error: ".data
      ++ dch ++ [')'])).foldl legacyLine (JVal.null, JVal.null) = _
    rw [show ("USER asked: (see conversation)\nAGENT: (Claude CLI error: ".data
        ++ dch ++ [')'] : List Char) =
        "USER asked: (see conversation)".data ++ '\n' ::
          ("AGENT: (Claude CLI error: ".data ++ dch ++ [')']) by
      rw [show "USER asked: (see conversation)\nAGENT: (Claude CLI error: ".data =
        "USER asked: (see conversation)".data ++ '\n' ::
          "AGENT: (Claude CLI error: ".data from rfl]
      simp]
    rw [splitNl_append _ _ (by decide)]
    rw [splitNl_no_nl _ (by
      have hagent : ∀ x ∈ "AGENT: (Claude CLI error: ".data, x ≠ '\n' := by
        decide
      intro c hc
      rcases List.mem_append.mp hc with h1 | h2
      · rcases List.mem_append.mp h1 with h1a | h1b
        · exact hagent c h1a
        · exact digit_or_dash_ne_nl (hd c h1b)
      · simp at h2; simp [h2])]
    simp only [List.foldl_cons, List.foldl_nil]
    rw [show legacyLine (JVal.null, JVal.null)
        "USER asked: (see conversation)".data =
        (.str "(see conversation)", .null) from rfl]
    rw [show ("AGENT: (Claude CLI error: ".data ++ dch ++ [')'] : List Char) =
        'A' :: 'G' :: 'E' :: 'N' :: 'T' :: ':' ::
          (" (Claude CLI error: ".data ++ dch ++ [')']) from by
      rw [show "AGENT: (Claude CLI error: ".data =
        'A' :: 'G' :: 'E' :: 'N' :: 'T' :: ':' ::
          " (Claude CLI error: ".data from rfl]
      simp]
    rw [legacyLine_agent]
  simp only [stopParseSummary]
  rw [hsf, hparse, hlegacy]

/-- C3 (amended): if the external command exits non-zero, the session
record finally written has status `waiting` and its summary fields are
NOT empty: the raw summary is the CLI-error placeholder, `userSummary`
is `(see conversation)`, and `agentSummary` is the extracted error
placeholder string. -/
theorem C3_error_waiting_with_placeholders (code : Int) (out : List Char)
    (text : String) (ctx : ProjectContext) (env : List (String × String))
    (sessionId : JVal) (cwd now : String) (hcode : code ≠ 0) :
    (generate_summary text ctx env (.exited code out)).summary =
      "USER asked: (see conversation)\nAGENT: (Claude CLI error: " ++
        intDec code ++ ")" ∧
    (stopWriteData sessionId cwd "waiting"
        (some ((generate_summary text ctx env (.exited code out)).summary))
        now).status = "waiting" ∧
    (stopWriteData sessionId cwd "waiting"
        (some ((generate_summary text ctx env (.exited code out)).summary))
        now).userSummary = .str "(see conversation)" ∧
    ∃ s, (stopWriteData sessionId cwd "waiting"
        (some ((generate_summary text ctx env (.exited code out)).summary))
        now).agentSummary = .str s := by
  have hsum : (generate_summary text ctx env (.exited code out)).summary =
      "USER asked: (see conversation)\nAGENT: (Claude CLI error: " ++
        intDec code ++ ")" := by
    simp [generate_summary, hcode]
  rw [hsum]
  have hSdata : ("USER asked: (see conversation)\nAGENT: (Claude CLI error: " ++
      intDec code ++ ")").data =
      "USER asked: (see conversation)\nAGENT: (Claude CLI error: ".data ++
        (intDec code).data ++ [')'] := by
    rw [strDataAppend, strDataAppend]
  have hne : ("USER asked: (see conversation)\nAGENT: (Claude CLI error: " ++
      intDec code ++ ")") ≠ "" := by
    intro h
    have hdd := congrArg String.data h
    rw [hSdata] at hdd
    obtain ⟨T, hT⟩ : ∃ t,
        "USER asked: (see conversation)\nAGENT: (Claude CLI error: ".data =
          'U' :: t := ⟨_, rfl⟩
    rw [hT] at hdd
    simp at hdd
  have hrec : stopWriteData sessionId cwd "waiting"
      (some ("USER asked: (see conversation)\nAGENT: (Claude CLI error: " ++
        intDec code ++ ")")) now =
      { sessionId := sessionId, cwd := cwd, status := "waiting",
        summary := some ("USER asked: (see conversation)\nAGENT: (Claude CLI error: "
          ++ intDec code ++ ")"),
        userSummary := (stopParseSummary
          ("USER asked: (see conversation)\nAGENT: (Claude CLI error: " ++
            intDec code ++ ")")).1,
        agentSummary := (stopParseSummary
          ("USER asked: (see conversation)\nAGENT: (Claude CLI error: " ++
            intDec code ++ ")")).2,
        updatedAt := now } := by
    simp only [stopWriteData]
    rw [if_pos hne]
  have hmk : ("USER asked: (see conversation)\nAGENT: (Claude CLI error: " ++
      intDec code ++ ")") =
      ⟨"USER asked: (see conversation)\nAGENT: (Claude CLI error: ".data ++
        (intDec code).data ++ [')']⟩ := by
    conv_lhs => rw [show ("USER asked: (see conversation)\nAGENT: (Claude CLI error: "
      ++ intDec code ++ ")") =
      ⟨("USER asked: (see conversation)\nAGENT: (Claude CLI error: " ++
        intDec code ++ ")").data⟩ from rfl]
    rw [hSdata]
  have hps := stopParseSummary_cli_error (intDec code).data (intDec_chars code)
  refine ⟨rfl, ?_, ?_, ?_⟩
  · rw [hrec]
  · rw [hrec]
    show (stopParseSummary _).1 = _
    rw [hmk, hps]
  · rw [hrec]
    show ∃ s, (stopParseSummary _).2 = JVal.str s
    rw [hmk, hps]
    exact ⟨_, rfl⟩

/-- Witness for C3 at exit code 1 and concrete inputs. -/
theorem C3_error_waiting_with_placeholders_witness :
    (1 : Int) ≠ 0 ∧
    ((generate_summary "t" ctxEmpty [] (.exited 1 ['j'])).summary =
      "USER asked: (see conversation)\nAGENT: (Claude CLI error: " ++
        intDec 1 ++ ")" ∧
    (stopWriteData (.str "s1") "/p" "waiting"
        (some ((generate_summary "t" ctxEmpty [] (.exited 1 ['j'])).summary))
        "T").status = "waiting" ∧
    (stopWriteData (.str "s1") "/p" "waiting"
        (some ((generate_summary "t" ctxEmpty [] (.exited 1 ['j'])).summary))
        "T").userSummary = .str "(see conversation)" ∧
    ∃ s, (stopWriteData (.str "s1") "/p" "waiting"
        (some ((generate_summary "t" ctxEmpty [] (.exited 1 ['j'])).summary))
        "T").agentSummary = .str s) :=
  ⟨by decide,
   C3_error_waiting_with_placeholders 1 ['j'] "t" ctxEmpty [] (.str "s1")
     "/p" "T" (by decide)⟩

/-- C9 (counterexample): a payload that is valid JSON but not an object
(here `[]`) makes `input_data.get(...)` raise `AttributeError`, which is
not caught: the stop hook exits with a nonzero status. -/
theorem C9_counterexample : (stopMainRun wStopArr).2 ≠ 0 := by decide

/-- C9 (amended): an unparseable payload gives a clean exit 0 in both
hooks before any store/file write; a payload parsing to a JSON object
gives exit 0 in the stop hook (cwd absent or a string) and in the
prompt hook (additionally: the prompt value sliceable — absent, a
string, or an array — and then prompt falsy, or the conversation file
holding a dict with an `exchanges` list).  A payload parsing to
non-object JSON, a non-sliceable prompt value (eagerly sliced in the
debug f-string), or ill-shaped stored state raises an uncaught error
and a nonzero exit instead. -/
theorem C9_exit_zero_cases :
    (∀ w : StopWorld, w.stdin = .error () →
      (stopMainRun w).2 = 0 ∧ (stopMainRun w).1.filter effIsWrite = []) ∧
    (∀ w : UpsWorld, w.stdin = .error () →
      (upsMainRun w).2 = 0 ∧ (upsMainRun w).1.filter effIsWrite = []) ∧
    (∀ (w : StopWorld) (d : List (String × JVal)) (cwd : String),
      w.stdin = .ok (.obj d) → jGetD d "cwd" (.str w.osCwd) = .str cwd →
      (stopMainRun w).2 = 0) ∧
    (∀ (w : UpsWorld) (d : List (String × JVal)) (cwd : String),
      w.stdin = .ok (.obj d) → jGetD d "cwd" (.str w.osCwd) = .str cwd →
      promptSliceable (jGetD d "prompt" (.str "")) →
      upsShapeOk w d → (upsMainRun w).2 = 0) := by
  refine ⟨?_, ?_, ?_, ?_⟩
  · intro w h
    by_cases hg : envGet w.env "CLAUDE_HOOK_SKIP" = some "1"
    · simp [stopMainRun, hg]
    · simp [stopMainRun, hg, h, effIsWrite]
  · intro w h
    by_cases hg : envGet w.env "CLAUDE_HOOK_SKIP" = some "1"
    · simp [upsMainRun, hg]
    · simp [upsMainRun, hg, h, effIsWrite]
  · intro w d cwd hs hc
    by_cases hg : envGet w.env "CLAUDE_HOOK_SKIP" = some "1"
    · simp [stopMainRun, hg]
    · simp [stopMainRun, hg, hs, hc]
  · intro w d cwd hs hc hslice hshape
    by_cases hg : envGet w.env "CLAUDE_HOOK_SKIP" = some "1"
    · simp [upsMainRun, hg]
    · by_cases hp : pyTruthy (jGetD d "prompt" (.str "")) = true
      · rcases hshape with hp' | hconv
        · exact absurd hp hp'
        · rcases hslice with ⟨s, hpr⟩ | ⟨items, hpr⟩ <;>
          · cases hcv : w.convFile with
            | none =>
                simp [upsMainRun, hg, hs, hpr, hpr ▸ hp, hcv, hc, jGet?,
                  List.find?]
            | some o =>
                cases o with
                | none =>
                    simp [upsMainRun, hg, hs, hpr, hpr ▸ hp, hcv, hc, jGet?,
                      List.find?]
                | some cv =>
                    obtain ⟨cd, exs, rfl, hex⟩ := hconv cv hcv
                    simp [upsMainRun, hg, hs, hpr, hpr ▸ hp, hcv, hex, hc]
      · have hpf : pyTruthy (jGetD d "prompt" (.str "")) = false := by
          cases hb : pyTruthy (jGetD d "prompt" (.str ""))
          · rfl
          · exact absurd hb hp
        rcases hslice with ⟨s, hpr⟩ | ⟨items, hpr⟩ <;>
          simp [upsMainRun, hg, hs, hpr, hpr ▸ hpf]

/-- Witness for C9 at concrete inputs: clean exit 0 with no writes on
unparseable stdin, and exit 0 on well-shaped object payloads. -/
theorem C9_exit_zero_cases_witness :
    ((stopMainRun wStopBadStdin).2 = 0 ∧
      (stopMainRun wStopBadStdin).1.filter effIsWrite = []) ∧
    ((upsMainRun wUpsBadStdin).2 = 0 ∧
      (upsMainRun wUpsBadStdin).1.filter effIsWrite = []) ∧
    (stopMainRun wStop0).2 = 0 ∧ (upsMainRun wUps0).2 = 0 :=
  ⟨C9_exit_zero_cases.1 wStopBadStdin rfl,
   C9_exit_zero_cases.2.1 wUpsBadStdin rfl,
   C9_exit_zero_cases.2.2.1 wStop0
     [("session_id", .str "s1"), ("cwd", .str "/p")] "/p" rfl rfl,
   C9_exit_zero_cases.2.2.2 wUps0
     [("prompt", .str "add login"), ("session_id", .str "s1"),
      ("cwd", .str "/p")] "/p" rfl rfl
     (Or.inl ⟨"add login", rfl⟩)
     (Or.inr (fun _ h => nomatch h))⟩

end Hooks
